import Mathlib

/-!
Shallow embedding of `octavia/controller/worker/v2/tasks/compute_tasks.py`.

External collaborators (the compute backend driver, the jinja config
generators, the repository) are modelled as explicit function parameters.
Machine effects (driver calls, admission-gate operations) are recorded in
explicit traces so that the tasks' interaction with their collaborators is
observable.  Each task's `execute`/`revert` is translated into a pure Lean
function over these inputs.
-/

/-- Instance status as reported by the compute driver on each poll.
Per the data model, an `InstanceStatus` is one of BUILDING, ACTIVE, ERROR;
the source compares `amp.status` against the ACTIVE and ERROR constants and
treats every other report as still building. -/
inductive AmpStatus
  | building
  | active
  | error
deriving DecidableEq, Repr

/-- The amphora record returned by `compute.get_amphora`: a status plus the
normalized description produced by `amp.to_dict()` (abstracted as a string). -/
structure Amphora where
  status : AmpStatus
  to_dict : String
deriving DecidableEq, Repr

/-- A Python value as passed to `revert` by the flow engine: either the
string result of a successful `execute`, or the `taskflow` failure marker
(`failure.Failure`) when `execute` itself failed. -/
inductive PyVal
  | str (s : String)
  | failureMarker
deriving DecidableEq, Repr

/-- A call made to the compute driver, with the argument it received. -/
inductive DriverCall
  | delete (compute_id : String)
  | delete_server_group (arg : PyVal)
deriving DecidableEq, Repr

/-- Availability-zone metadata dictionary: the two keys the tasks read. -/
structure AvailabilityZoneMeta where
  compute_zone : Option String
  management_network : Option String
deriving DecidableEq, Repr

/-- An Octavia flavor dictionary: the two keys `ComputeCreate.execute` reads.
`none` on a field models the key being absent (`flavor.get(key, default)`). -/
structure OctaviaFlavor where
  loadbalancer_topology : Option String
  compute_flavor : Option String
deriving DecidableEq, Repr

/-- The relevant configuration options read from `CONF` by the tasks. -/
structure Config where
  amp_boot_network_list : List String
  user_data_config_drive : Bool
  amp_ssh_key_name : String
  loadbalancer_topology : String
  amp_flavor_id : String
  amp_image_id : String
  amp_image_tag : String
  amp_image_owner_id : String
  amp_secgroup_list : List String
  build_rate_limit : Int
  amp_active_retries : Nat
deriving DecidableEq, Repr

/-- A Python dict used for `config_drive_files`, as an insertion-ordered
association list. -/
abbrev Dict := List (String × String)

/-- Python dict assignment `d[k] = v`: replace in place if the key exists,
otherwise append. -/
def dictInsert (d : Dict) (k v : String) : Dict :=
  if d.any (fun p => p.1 = k) then d.map (fun p => if p.1 = k then (k, v) else p)
  else d ++ [(k, v)]

/-- Modelled from the spec: the Admission Gate's ticket state.  The gate
implementation (`amphora_rate_limit.AmphoraBuildRateLimit`) is not part of
the given source, only its call sites are; per the spec an AdmissionTicket
is an (amphora id, priority class, enqueue timestamp) record keyed by
amphora id (the timestamp, being real time, is not modelled). -/
abbrev GateState := List (String × Nat)

/-- Modelled from the spec: `add_to_build_request_queue(amphora_id, priority)`
registers an AdmissionTicket for the amphora. -/
def add_to_build_request_queue (g : GateState) (amphora_id : String)
    (priority : Nat) : GateState :=
  (amphora_id, priority) :: g

/-- Modelled from the spec: `remove_from_build_req_queue(amphora_id)` removes
the ticket if present; idempotent, a no-op when no ticket is held. -/
def remove_from_build_req_queue (g : GateState) (amphora_id : String) :
    GateState :=
  g.filter (fun t => t.1 ≠ amphora_id)

/-- Number of outstanding tickets the gate holds for a given amphora id. -/
def ticketCount (g : GateState) (amphora_id : String) : Nat :=
  (g.filter (fun t => t.1 = amphora_id)).length

/-- An observable interaction with the Admission Gate. -/
inductive GateEvent
  | addTicket (amphora_id : String) (priority : Nat)
  | removeTicket (amphora_id : String)
deriving DecidableEq, Repr

/-- The argument record of a `compute.build(...)` call made by
`ComputeCreate.execute`. -/
structure BuildCall where
  name : String
  amphora_flavor : String
  image_id : String
  image_tag : String
  image_owner : String
  key_name : String
  sec_groups : List String
  network_ids : List String
  port_ids : List String
  config_drive_files : Option Dict
  user_data : Option String
  server_group_id : Option String
  availability_zone : Option String
deriving DecidableEq, Repr

/-- The compute driver capability set consumed by the tasks (supplied
externally by the plugin registry).  `get_amphora` additionally takes the
poll tick, so that a run's sequence of driver-reported statuses is an
explicit input; `build` and the delete operations may fail with an error. -/
structure ComputeDriver where
  build : BuildCall → Except String String
  delete : String → Except String Unit
  delete_server_group : PyVal → Except String Unit
  get_amphora : String → Option String → Nat → Amphora × Option String

/-- The observable result of one `ComputeCreate.execute` run: the returned
compute id (or the propagated build failure), the single `compute.build`
call that was made, the gate interactions, the gate state afterwards, and
the contents of the caller's `config_drive_files` dict after the call
(`none` when the caller passed no dict). -/
structure CreateResult where
  outcome : Except String String
  buildCall : BuildCall
  gateEvents : List GateEvent
  gate : GateState
  caller_config_drive_files : Option Dict

/-- `ComputeCreate.execute` (compute_tasks.py lines 56-135).  The jinja
config generators are external collaborators, passed in as `agent_cfg`
(amphora id and topology to agent config content), `logging_cfg` (logging
config content) and `user_data_cfg` (config drive files to user data). -/
def ComputeCreate.execute (conf : Config) (driver : ComputeDriver)
    (agent_cfg : String → String → String) (logging_cfg : String)
    (user_data_cfg : Dict → String) (gate : GateState)
    (amphora_id : String) (config_drive_files : Option Dict)
    (build_type_priority : Nat) (server_group_id : Option String)
    (ports : Option (List String)) (flavor : Option OctaviaFlavor)
    (availability_zone : Option AvailabilityZoneMeta) : CreateResult :=
  -- ports = ports or []
  let port_list := ports.getD []
  -- network_ids = CONF.controller_worker.amp_boot_network_list[:]
  let network_ids := conf.amp_boot_network_list
  -- config_drive_files = config_drive_files or {}: a None or empty caller
  -- dict is replaced by a fresh one; a non-empty caller dict is aliased, so
  -- the key assignments below mutate the caller's dict in place.
  let cdf0 : Dict := (config_drive_files.getD [])
  let aliased : Bool :=
    match config_drive_files with
    | some d => decide (d ≠ [])
    | none => false
  -- flavor overrides falling back to CONF defaults
  let topology :=
    match flavor with
    | some f => f.loadbalancer_topology.getD conf.loadbalancer_topology
    | none => conf.loadbalancer_topology
  let amp_compute_flavor :=
    match flavor with
    | some f => f.compute_flavor.getD conf.amp_flavor_id
    | none => conf.amp_flavor_id
  -- availability-zone metadata: compute zone, and management network
  -- replacing the network list when truthy
  let amp_availability_zone :=
    match availability_zone with
    | some az => az.compute_zone
    | none => none
  let network_ids :=
    match availability_zone with
    | some az =>
      match az.management_network with
      | some n => if n = "" then network_ids else [n]
      | none => network_ids
    | none => network_ids
  -- if CONF.haproxy_amphora.build_rate_limit != -1: add_to_build_request_queue
  let gateEvents :=
    if conf.build_rate_limit ≠ -1 then
      [GateEvent.addTicket amphora_id build_type_priority]
    else []
  let gate :=
    if conf.build_rate_limit ≠ -1 then
      add_to_build_request_queue gate amphora_id build_type_priority
    else gate
  -- config_drive_files['/etc/octavia/amphora-agent.conf'] = agent config
  let cdf1 := dictInsert cdf0 "/etc/octavia/amphora-agent.conf"
    (agent_cfg amphora_id topology)
  -- config_drive_files['/etc/rsyslog.d/10-rsyslog.conf'] = logging config
  let cdf2 := dictInsert cdf1 "/etc/rsyslog.d/10-rsyslog.conf" logging_cfg
  -- if user_data_config_drive: build user data, pass config_drive_files=None
  let pair : Option String × Option Dict :=
    if conf.user_data_config_drive then (some (user_data_cfg cdf2), none)
    else (none, some cdf2)
  let call : BuildCall :=
    ⟨"amphora-" ++ amphora_id, amp_compute_flavor, conf.amp_image_id,
      conf.amp_image_tag, conf.amp_image_owner_id, conf.amp_ssh_key_name,
      conf.amp_secgroup_list, network_ids, port_list, pair.2, pair.1,
      server_group_id, amp_availability_zone⟩
  ⟨driver.build call, call, gateEvents, gate,
    match config_drive_files with
    | none => none
    | some d => some (if aliased then cdf2 else d)⟩

/-- `ComputeCreate.revert` (lines 137-151): the calls made to the driver and
whether the revert itself raised.  The `isinstance(result, failure.Failure)`
guard returns early with no driver call; otherwise the delete is attempted
and any exception it raises is caught and logged. -/
structure RevertTrace where
  calls : List DriverCall
  outcome : Except String Unit

def ComputeCreate.revert (driver : ComputeDriver) (result : PyVal)
    (_amphora_id : String) : RevertTrace :=
  match result with
  | PyVal.failureMarker => ⟨[], Except.ok ()⟩
  | PyVal.str compute_id =>
    ⟨[DriverCall.delete compute_id],
      match driver.delete compute_id with
      | Except.ok _ => Except.ok ()
      | Except.error _ => Except.ok ()⟩

/-- `NovaServerGroupCreate.revert` (lines 262-276): `server_group_id = result`
with no failure-marker guard, so whatever value the flow engine passed in —
including the failure marker — is handed to `delete_server_group`; any
exception that call raises is caught and logged. -/
def NovaServerGroupCreate.revert (driver : ComputeDriver) (result : PyVal) :
    RevertTrace :=
  ⟨[DriverCall.delete_server_group result],
    match driver.delete_server_group result with
    | Except.ok _ => Except.ok ()
    | Except.error _ => Except.ok ()⟩

/-- `NovaServerGroupDelete.execute` (lines 279-284): delete the group when a
group id is present, otherwise return having made no driver call.  Failures
of the driver call are not caught here. -/
def NovaServerGroupDelete.execute (driver : ComputeDriver)
    (server_group_id : Option String) : RevertTrace :=
  match server_group_id with
  | some sgid =>
    ⟨[DriverCall.delete_server_group (PyVal.str sgid)],
      driver.delete_server_group (PyVal.str sgid)⟩
  | none => ⟨[], Except.ok ()⟩

/-- The loop body of `DeleteAmphoraeOnLoadBalancer.execute` (lines 192-199):
delete each amphora's compute instance in turn; the first failure is logged
and re-raised, aborting the iteration. -/
def DeleteAmphoraeOnLoadBalancer.loop (delete_op : String → Except String Unit) :
    List String → List DriverCall × Except String Unit
  | [] => ([], Except.ok ())
  | h :: t =>
    match delete_op h with
    | Except.ok _ =>
      let r := DeleteAmphoraeOnLoadBalancer.loop delete_op t
      (DriverCall.delete h :: r.1, r.2)
    | Except.error e => ([DriverCall.delete h], Except.error e)

/-- `DeleteAmphoraeOnLoadBalancer.execute` (lines 189-199).  The repository
lookup of the load balancer's amphorae is an external collaborator; the
repository-known sequence of compute ids is therefore an input. -/
def DeleteAmphoraeOnLoadBalancer.execute (driver : ComputeDriver)
    (amphorae : List String) : List DriverCall × Except String Unit :=
  DeleteAmphoraeOnLoadBalancer.loop driver.delete amphorae

/-- Terminal outcome of `ComputeActiveWait.execute`: the returned normalized
description, the raised `ComputeBuildException` carrying the driver-reported
fault, or the raised `ComputeWaitTimeoutException` identifying the instance. -/
inductive WaitOutcome
  | ok (desc : String)
  | buildError (fault : Option String)
  | timeout (compute_id : String)
deriving DecidableEq, Repr

/-- The observable result of one `ComputeActiveWait.execute` run: the
terminal outcome, the number of `get_amphora` polls made, the gate
interactions, and the gate state afterwards. -/
structure WaitResult where
  outcome : WaitOutcome
  polls : Nat
  gateEvents : List GateEvent
  gate : GateState
deriving DecidableEq, Repr

/-- `amp_network` as resolved by `ComputeActiveWait.execute` (lines 228-231):
the availability-zone metadata's management network when given, else none. -/
def ComputeActiveWait.amp_network :
    Option AvailabilityZoneMeta → Option String
  | some az => az.management_network
  | none => none

/-- The `for i in range(CONF.controller_worker.amp_active_retries)` loop of
`ComputeActiveWait.execute` (lines 232-242).  `i` is the index of the next
poll, the final argument the number of iterations remaining; exhausting it
raises the timeout.  The fixed sleep between polls is real time and has no
observable effect here. -/
def ComputeActiveWait.loop (conf : Config) (driver : ComputeDriver)
    (compute_id amphora_id : String) (amp_network : Option String)
    (gate : GateState) (i : Nat) : Nat → WaitResult
  | 0 => ⟨WaitOutcome.timeout compute_id, i, [], gate⟩
  | Nat.succ rem =>
    let ar := driver.get_amphora compute_id amp_network i
    if ar.1.status = AmpStatus.active then
      if conf.build_rate_limit ≠ -1 then
        ⟨WaitOutcome.ok ar.1.to_dict, i + 1,
          [GateEvent.removeTicket amphora_id],
          remove_from_build_req_queue gate amphora_id⟩
      else
        ⟨WaitOutcome.ok ar.1.to_dict, i + 1, [], gate⟩
    else if ar.1.status = AmpStatus.error then
      ⟨WaitOutcome.buildError ar.2, i + 1, [], gate⟩
    else
      ComputeActiveWait.loop conf driver compute_id amphora_id amp_network
        gate (i + 1) rem

/-- `ComputeActiveWait.execute` (lines 218-242). -/
def ComputeActiveWait.execute (conf : Config) (driver : ComputeDriver)
    (gate : GateState) (compute_id amphora_id : String)
    (availability_zone : Option AvailabilityZoneMeta) : WaitResult :=
  ComputeActiveWait.loop conf driver compute_id amphora_id
    (ComputeActiveWait.amp_network availability_zone) gate 0
    conf.amp_active_retries

/-- The driver-reported status of the poll with index `j`. -/
def pollStatus (driver : ComputeDriver) (compute_id : String)
    (amp_network : Option String) (j : Nat) : AmpStatus :=
  (driver.get_amphora compute_id amp_network j).1.status

/-- Terminal outcome of a saga provisioning run. -/
inductive SagaOutcome
  | success (desc : String)
  | abortedBuildFailure (e : String)
  | abortedBuildError (fault : Option String)
  | abortedTimeout (compute_id : String)
deriving DecidableEq, Repr

/-- Gate-relevant trace of a saga provisioning run. -/
structure SagaResult where
  outcome : SagaOutcome
  gateEvents : List GateEvent
  gate : GateState
deriving DecidableEq, Repr

/-- Modelled from the spec's control flow (§2): the saga orchestrator (an
external flow engine) sequences Instance Create and then the Readiness
Poller, and on failure at any step reverts the already-succeeded steps in
reverse order.  Neither `ComputeCreate.revert` nor any other revert in the
module interacts with the Admission Gate, so the run's gate trace is exactly
the concatenation of the two tasks' gate traces. -/
def sagaProvisionRun (conf : Config) (driver : ComputeDriver)
    (agent_cfg : String → String → String) (logging_cfg : String)
    (user_data_cfg : Dict → String) (gate : GateState)
    (amphora_id : String) (config_drive_files : Option Dict)
    (build_type_priority : Nat) (server_group_id : Option String)
    (ports : Option (List String)) (flavor : Option OctaviaFlavor)
    (availability_zone : Option AvailabilityZoneMeta) : SagaResult :=
  let c := ComputeCreate.execute conf driver agent_cfg logging_cfg
    user_data_cfg gate amphora_id config_drive_files build_type_priority
    server_group_id ports flavor availability_zone
  match c.outcome with
  | Except.error e => ⟨SagaOutcome.abortedBuildFailure e, c.gateEvents, c.gate⟩
  | Except.ok compute_id =>
    let w := ComputeActiveWait.execute conf driver c.gate compute_id
      amphora_id availability_zone
    match w.outcome with
    | WaitOutcome.ok desc =>
      ⟨SagaOutcome.success desc, c.gateEvents ++ w.gateEvents, w.gate⟩
    | WaitOutcome.buildError fault =>
      ⟨SagaOutcome.abortedBuildError fault, c.gateEvents ++ w.gateEvents, w.gate⟩
    | WaitOutcome.timeout cid =>
      ⟨SagaOutcome.abortedTimeout cid, c.gateEvents ++ w.gateEvents, w.gate⟩

theorem ComputeActiveWait.loop_succ_building (conf : Config)
    (driver : ComputeDriver) (cid aid : String) (net : Option String)
    (gate : GateState) (i rem : Nat)
    (hb : (driver.get_amphora cid net i).1.status = AmpStatus.building) :
    ComputeActiveWait.loop conf driver cid aid net gate i (rem + 1) =
      ComputeActiveWait.loop conf driver cid aid net gate (i + 1) rem := by
  simp [ComputeActiveWait.loop, hb]

theorem ComputeActiveWait.loop_succ_active (conf : Config)
    (driver : ComputeDriver) (cid aid : String) (net : Option String)
    (gate : GateState) (i rem : Nat) (hrl : conf.build_rate_limit ≠ -1)
    (ha : (driver.get_amphora cid net i).1.status = AmpStatus.active) :
    ComputeActiveWait.loop conf driver cid aid net gate i (rem + 1) =
      ⟨WaitOutcome.ok (driver.get_amphora cid net i).1.to_dict, i + 1,
        [GateEvent.removeTicket aid],
        remove_from_build_req_queue gate aid⟩ := by
  simp [ComputeActiveWait.loop, ha, hrl]

theorem ComputeActiveWait.loop_succ_error (conf : Config)
    (driver : ComputeDriver) (cid aid : String) (net : Option String)
    (gate : GateState) (i rem : Nat)
    (he : (driver.get_amphora cid net i).1.status = AmpStatus.error) :
    ComputeActiveWait.loop conf driver cid aid net gate i (rem + 1) =
      ⟨WaitOutcome.buildError (driver.get_amphora cid net i).2, i + 1,
        [], gate⟩ := by
  simp [ComputeActiveWait.loop, he]

theorem ComputeActiveWait.loop_first_active (conf : Config)
    (driver : ComputeDriver) (cid aid : String) (net : Option String)
    (hrl : conf.build_rate_limit ≠ -1) :
    ∀ (k i rem : Nat) (gate : GateState), k < rem →
      (∀ j, j < k → pollStatus driver cid net (i + j) = AmpStatus.building) →
      pollStatus driver cid net (i + k) = AmpStatus.active →
      ComputeActiveWait.loop conf driver cid aid net gate i rem =
        ⟨WaitOutcome.ok (driver.get_amphora cid net (i + k)).1.to_dict,
          i + k + 1, [GateEvent.removeTicket aid],
          remove_from_build_req_queue gate aid⟩ := by
  intro k
  induction k with
  | zero =>
    intro i rem gate hk hb ha
    cases rem with
    | zero => omega
    | succ rem =>
      have ha' : (driver.get_amphora cid net i).1.status = AmpStatus.active := by
        simpa [pollStatus] using ha
      simpa using ComputeActiveWait.loop_succ_active conf driver cid aid net
        gate i rem hrl ha'
  | succ k ih =>
    intro i rem gate hk hb ha
    cases rem with
    | zero => omega
    | succ rem =>
      have hb0 : (driver.get_amphora cid net i).1.status = AmpStatus.building := by
        simpa [pollStatus] using hb 0 (Nat.succ_pos k)
      rw [ComputeActiveWait.loop_succ_building conf driver cid aid net gate
        i rem hb0]
      have hb' : ∀ j, j < k →
          pollStatus driver cid net (i + 1 + j) = AmpStatus.building := by
        intro j hj
        have e : i + 1 + j = i + (j + 1) := by omega
        rw [e]
        exact hb (j + 1) (by omega)
      have ha' : pollStatus driver cid net (i + 1 + k) = AmpStatus.active := by
        have e : i + 1 + k = i + (k + 1) := by omega
        rw [e]; exact ha
      have hres := ih (i + 1) rem gate (by omega) hb' ha'
      have e : i + 1 + k = i + (k + 1) := by omega
      rw [e] at hres
      exact hres

theorem ComputeActiveWait.loop_first_error (conf : Config)
    (driver : ComputeDriver) (cid aid : String) (net : Option String) :
    ∀ (k i rem : Nat) (gate : GateState), k < rem →
      (∀ j, j < k → pollStatus driver cid net (i + j) = AmpStatus.building) →
      pollStatus driver cid net (i + k) = AmpStatus.error →
      ComputeActiveWait.loop conf driver cid aid net gate i rem =
        ⟨WaitOutcome.buildError (driver.get_amphora cid net (i + k)).2,
          i + k + 1, [], gate⟩ := by
  intro k
  induction k with
  | zero =>
    intro i rem gate hk hb he
    cases rem with
    | zero => omega
    | succ rem =>
      have he' : (driver.get_amphora cid net i).1.status = AmpStatus.error := by
        simpa [pollStatus] using he
      simpa using ComputeActiveWait.loop_succ_error conf driver cid aid net
        gate i rem he'
  | succ k ih =>
    intro i rem gate hk hb he
    cases rem with
    | zero => omega
    | succ rem =>
      have hb0 : (driver.get_amphora cid net i).1.status = AmpStatus.building := by
        simpa [pollStatus] using hb 0 (Nat.succ_pos k)
      rw [ComputeActiveWait.loop_succ_building conf driver cid aid net gate
        i rem hb0]
      have hb' : ∀ j, j < k →
          pollStatus driver cid net (i + 1 + j) = AmpStatus.building := by
        intro j hj
        have e : i + 1 + j = i + (j + 1) := by omega
        rw [e]
        exact hb (j + 1) (by omega)
      have he' : pollStatus driver cid net (i + 1 + k) = AmpStatus.error := by
        have e : i + 1 + k = i + (k + 1) := by omega
        rw [e]; exact he
      have hres := ih (i + 1) rem gate (by omega) hb' he'
      have e : i + 1 + k = i + (k + 1) := by omega
      rw [e] at hres
      exact hres

theorem ComputeActiveWait.loop_timeout (conf : Config)
    (driver : ComputeDriver) (cid aid : String) (net : Option String) :
    ∀ (rem i : Nat) (gate : GateState),
      (∀ j, j < rem → pollStatus driver cid net (i + j) = AmpStatus.building) →
      ComputeActiveWait.loop conf driver cid aid net gate i rem =
        ⟨WaitOutcome.timeout cid, i + rem, [], gate⟩ := by
  intro rem
  induction rem with
  | zero =>
    intro i gate _
    simp [ComputeActiveWait.loop]
  | succ rem ih =>
    intro i gate hb
    have hb0 : (driver.get_amphora cid net i).1.status = AmpStatus.building := by
      simpa [pollStatus] using hb 0 (Nat.succ_pos rem)
    rw [ComputeActiveWait.loop_succ_building conf driver cid aid net gate
      i rem hb0]
    have hb' : ∀ j, j < rem →
        pollStatus driver cid net (i + 1 + j) = AmpStatus.building := by
      intro j hj
      have e : i + 1 + j = i + (j + 1) := by omega
      rw [e]
      exact hb (j + 1) (by omega)
    have hres := ih (i + 1) gate hb'
    have e : i + 1 + rem = i + (rem + 1) := by omega
    rw [e] at hres
    exact hres

theorem ComputeActiveWait.loop_gate_frozen (conf : Config)
    (driver : ComputeDriver) (cid aid : String) (net : Option String)
    (hrl : conf.build_rate_limit = -1) :
    ∀ (rem i : Nat) (gate : GateState),
      (ComputeActiveWait.loop conf driver cid aid net gate i rem).gateEvents
          = [] ∧
      (ComputeActiveWait.loop conf driver cid aid net gate i rem).gate
          = gate := by
  intro rem
  induction rem with
  | zero =>
    intro i gate
    simp [ComputeActiveWait.loop]
  | succ rem ih =>
    intro i gate
    cases hst : (driver.get_amphora cid net i).1.status with
    | building =>
      rw [ComputeActiveWait.loop_succ_building conf driver cid aid net gate
        i rem hst]
      exact ih (i + 1) gate
    | active =>
      simp [ComputeActiveWait.loop, hst, hrl]
    | error =>
      simp [ComputeActiveWait.loop, hst]

theorem ComputeActiveWait.loop_cases (conf : Config)
    (driver : ComputeDriver) (cid aid : String) (net : Option String)
    (hrl : conf.build_rate_limit ≠ -1) :
    ∀ (rem i : Nat) (gate : GateState),
      ((∃ d, (ComputeActiveWait.loop conf driver cid aid net gate i rem).outcome
            = WaitOutcome.ok d) ∧
        (ComputeActiveWait.loop conf driver cid aid net gate i rem).gateEvents
            = [GateEvent.removeTicket aid] ∧
        (ComputeActiveWait.loop conf driver cid aid net gate i rem).gate
            = remove_from_build_req_queue gate aid)
      ∨ ((∀ d, (ComputeActiveWait.loop conf driver cid aid net gate i rem).outcome
            ≠ WaitOutcome.ok d) ∧
        (ComputeActiveWait.loop conf driver cid aid net gate i rem).gateEvents
            = [] ∧
        (ComputeActiveWait.loop conf driver cid aid net gate i rem).gate
            = gate) := by
  intro rem
  induction rem with
  | zero =>
    intro i gate
    right
    simp [ComputeActiveWait.loop]
  | succ rem ih =>
    intro i gate
    cases hst : (driver.get_amphora cid net i).1.status with
    | building =>
      rw [ComputeActiveWait.loop_succ_building conf driver cid aid net gate
        i rem hst]
      exact ih (i + 1) gate
    | active =>
      left
      rw [ComputeActiveWait.loop_succ_active conf driver cid aid net gate
        i rem hrl hst]
      exact ⟨⟨_, rfl⟩, rfl, rfl⟩
    | error =>
      right
      rw [ComputeActiveWait.loop_succ_error conf driver cid aid net gate
        i rem hst]
      exact ⟨fun d h => WaitOutcome.noConfusion h, rfl, rfl⟩

theorem ticketCount_add (g : GateState) (a : String) (p : Nat) :
    ticketCount (add_to_build_request_queue g a p) a = ticketCount g a + 1 := by
  simp [ticketCount, add_to_build_request_queue, List.filter_cons]

theorem ticketCount_remove (g : GateState) (a : String) :
    ticketCount (remove_from_build_req_queue g a) a = 0 := by
  simp [remove_from_build_req_queue, ticketCount, List.filter_filter]

theorem ComputeCreate.execute_gate_enabled (conf : Config)
    (driver : ComputeDriver) (agent_cfg : String → String → String)
    (logging_cfg : String) (user_data_cfg : Dict → String) (gate : GateState)
    (amphora_id : String) (config_drive_files : Option Dict)
    (build_type_priority : Nat) (server_group_id : Option String)
    (ports : Option (List String)) (flavor : Option OctaviaFlavor)
    (availability_zone : Option AvailabilityZoneMeta)
    (hrl : conf.build_rate_limit ≠ -1) :
    (ComputeCreate.execute conf driver agent_cfg logging_cfg user_data_cfg
        gate amphora_id config_drive_files build_type_priority
        server_group_id ports flavor availability_zone).gateEvents
      = [GateEvent.addTicket amphora_id build_type_priority] ∧
    (ComputeCreate.execute conf driver agent_cfg logging_cfg user_data_cfg
        gate amphora_id config_drive_files build_type_priority
        server_group_id ports flavor availability_zone).gate
      = add_to_build_request_queue gate amphora_id build_type_priority := by
  constructor <;> simp [ComputeCreate.execute, hrl]

theorem ComputeCreate.execute_gate_disabled (conf : Config)
    (driver : ComputeDriver) (agent_cfg : String → String → String)
    (logging_cfg : String) (user_data_cfg : Dict → String) (gate : GateState)
    (amphora_id : String) (config_drive_files : Option Dict)
    (build_type_priority : Nat) (server_group_id : Option String)
    (ports : Option (List String)) (flavor : Option OctaviaFlavor)
    (availability_zone : Option AvailabilityZoneMeta)
    (hrl : conf.build_rate_limit = -1) :
    (ComputeCreate.execute conf driver agent_cfg logging_cfg user_data_cfg
        gate amphora_id config_drive_files build_type_priority
        server_group_id ports flavor availability_zone).gateEvents = [] ∧
    (ComputeCreate.execute conf driver agent_cfg logging_cfg user_data_cfg
        gate amphora_id config_drive_files build_type_priority
        server_group_id ports flavor availability_zone).gate = gate := by
  constructor <;> simp [ComputeCreate.execute, hrl]

theorem ComputeActiveWait.execute_eq_loop (conf : Config)
    (driver : ComputeDriver) (gate : GateState)
    (compute_id amphora_id : String)
    (availability_zone : Option AvailabilityZoneMeta) :
    ComputeActiveWait.execute conf driver gate compute_id amphora_id
        availability_zone =
      ComputeActiveWait.loop conf driver compute_id amphora_id
        (ComputeActiveWait.amp_network availability_zone) gate 0
        conf.amp_active_retries := rfl

/-- C1: for every run of `ComputeActiveWait.execute` with retry bound at
least 1 and a sequence of driver-reported statuses, the outcome is fully
determined by that sequence: if the first non-BUILDING status within the
first `amp_active_retries` polls is ACTIVE, the task returns the normalized
instance description and releases the admission ticket after exactly that
many polls; if it is ERROR, it raises a build failure carrying the
driver-reported fault after exactly that many polls; and if all
`amp_active_retries` polls report BUILDING, it raises a timeout failure
identifying the instance handle after exactly `amp_active_retries` polls. -/
theorem C1_readiness_poller_outcome (conf : Config) (driver : ComputeDriver)
    (gate : GateState) (compute_id amphora_id : String)
    (availability_zone : Option AvailabilityZoneMeta)
    (hrl : conf.build_rate_limit ≠ -1)
    (_hr : 1 ≤ conf.amp_active_retries) :
    (∀ k, k < conf.amp_active_retries →
      (∀ j, j < k → pollStatus driver compute_id
          (ComputeActiveWait.amp_network availability_zone) j
            = AmpStatus.building) →
      (pollStatus driver compute_id
          (ComputeActiveWait.amp_network availability_zone) k
            = AmpStatus.active →
        ComputeActiveWait.execute conf driver gate compute_id amphora_id
            availability_zone =
          ⟨WaitOutcome.ok (driver.get_amphora compute_id
              (ComputeActiveWait.amp_network availability_zone) k).1.to_dict,
            k + 1, [GateEvent.removeTicket amphora_id],
            remove_from_build_req_queue gate amphora_id⟩) ∧
      (pollStatus driver compute_id
          (ComputeActiveWait.amp_network availability_zone) k
            = AmpStatus.error →
        ComputeActiveWait.execute conf driver gate compute_id amphora_id
            availability_zone =
          ⟨WaitOutcome.buildError (driver.get_amphora compute_id
              (ComputeActiveWait.amp_network availability_zone) k).2,
            k + 1, [], gate⟩))
    ∧ ((∀ j, j < conf.amp_active_retries → pollStatus driver compute_id
          (ComputeActiveWait.amp_network availability_zone) j
            = AmpStatus.building) →
        ComputeActiveWait.execute conf driver gate compute_id amphora_id
            availability_zone =
          ⟨WaitOutcome.timeout compute_id, conf.amp_active_retries, [],
            gate⟩) := by
  constructor
  · intro k hk hb
    constructor
    · intro ha
      have hres := ComputeActiveWait.loop_first_active conf driver compute_id
        amphora_id (ComputeActiveWait.amp_network availability_zone) hrl k 0
        conf.amp_active_retries gate hk
        (fun j hj => by simpa using hb j hj) (by simpa using ha)
      simpa [ComputeActiveWait.execute_eq_loop] using hres
    · intro he
      have hres := ComputeActiveWait.loop_first_error conf driver compute_id
        amphora_id (ComputeActiveWait.amp_network availability_zone) k 0
        conf.amp_active_retries gate hk
        (fun j hj => by simpa using hb j hj) (by simpa using he)
      simpa [ComputeActiveWait.execute_eq_loop] using hres
  · intro hb
    have hres := ComputeActiveWait.loop_timeout conf driver compute_id
      amphora_id (ComputeActiveWait.amp_network availability_zone)
      conf.amp_active_retries 0 gate (fun j hj => by simpa using hb j hj)
    simpa [ComputeActiveWait.execute_eq_loop] using hres

/-- Test fixture: a configuration with the build rate limit enabled (2) and
3 poll retries. -/
def confA : Config :=
  ⟨["n1", "n2"], false, "key", "SINGLE", "flv", "img", "tag", "owner",
    ["sg"], 2, 3⟩

/-- Test fixture: a driver that builds "cid-1", reports BUILDING on the
first two polls and ACTIVE (with description "d2") from the third. -/
def driverA : ComputeDriver :=
  ⟨fun _ => Except.ok "cid-1", fun _ => Except.ok (), fun _ => Except.ok (),
    fun _ _ i =>
      if i < 2 then (⟨AmpStatus.building, "b"⟩, none)
      else (⟨AmpStatus.active, "d2"⟩, none)⟩

theorem C1_readiness_poller_outcome_witness :
    ComputeActiveWait.execute confA driverA [] "cid-1" "amp-1" none =
      ⟨WaitOutcome.ok "d2", 3, [GateEvent.removeTicket "amp-1"], []⟩ :=
  ((C1_readiness_poller_outcome confA driverA [] "cid-1" "amp-1" none
      (by decide) (by decide)).1 2 (by decide) (by decide)).1 (by decide)

/-- Test fixture: agent config generator. -/
def agentA : String → String → String := fun a t => "agent:" ++ a ++ ":" ++ t

/-- Test fixture: user-data generator. -/
def udA : Dict → String := fun _ => "ud"

/-- Test fixture: `confA` with the build rate limit disabled (-1). -/
def confB : Config :=
  ⟨["n1", "n2"], false, "key", "SINGLE", "flv", "img", "tag", "owner",
    ["sg"], -1, 3⟩

/-- C10: when the configured build-concurrency limit is disabled
(`build_rate_limit = -1`), neither `ComputeCreate.execute` nor
`ComputeActiveWait.execute` interacts with the Admission Gate: no ticket is
registered on create and none is released on reaching ACTIVE, and the
gate's ticket state is left unchanged by every run. -/
theorem C10_gate_untouched_when_disabled (conf : Config)
    (driver : ComputeDriver) (agent_cfg : String → String → String)
    (logging_cfg : String) (user_data_cfg : Dict → String) (gate : GateState)
    (amphora_id : String) (config_drive_files : Option Dict)
    (build_type_priority : Nat) (server_group_id : Option String)
    (ports : Option (List String)) (flavor : Option OctaviaFlavor)
    (availability_zone : Option AvailabilityZoneMeta) (compute_id : String)
    (hrl : conf.build_rate_limit = -1) :
    (ComputeCreate.execute conf driver agent_cfg logging_cfg user_data_cfg
        gate amphora_id config_drive_files build_type_priority
        server_group_id ports flavor availability_zone).gateEvents = [] ∧
    (ComputeCreate.execute conf driver agent_cfg logging_cfg user_data_cfg
        gate amphora_id config_drive_files build_type_priority
        server_group_id ports flavor availability_zone).gate = gate ∧
    (ComputeActiveWait.execute conf driver gate compute_id amphora_id
        availability_zone).gateEvents = [] ∧
    (ComputeActiveWait.execute conf driver gate compute_id amphora_id
        availability_zone).gate = gate := by
  have hc := ComputeCreate.execute_gate_disabled conf driver agent_cfg
    logging_cfg user_data_cfg gate amphora_id config_drive_files
    build_type_priority server_group_id ports flavor availability_zone hrl
  have hw := ComputeActiveWait.loop_gate_frozen conf driver compute_id
    amphora_id (ComputeActiveWait.amp_network availability_zone) hrl
    conf.amp_active_retries 0 gate
  rw [ComputeActiveWait.execute_eq_loop]
  exact ⟨hc.1, hc.2, hw.1, hw.2⟩

theorem C10_gate_untouched_when_disabled_witness :
    (ComputeCreate.execute confB driverA agentA "log" udA [] "amp-1" none
        40 none none none none).gateEvents = [] ∧
    (ComputeCreate.execute confB driverA agentA "log" udA [] "amp-1" none
        40 none none none none).gate = [] ∧
    (ComputeActiveWait.execute confB driverA [] "cid-1" "amp-1"
        none).gateEvents = [] ∧
    (ComputeActiveWait.execute confB driverA [] "cid-1" "amp-1"
        none).gate = [] :=
  C10_gate_untouched_when_disabled confB driverA agentA "log" udA []
    "amp-1" none 40 none none none none "cid-1" (by decide)

/-- Test fixture: a driver whose instance goes to ERROR with fault
"fault-x" on the first poll. -/
def driverErr : ComputeDriver :=
  ⟨fun _ => Except.ok "cid-1", fun _ => Except.ok (), fun _ => Except.ok (),
    fun _ _ _ => (⟨AmpStatus.error, "d"⟩, some "fault-x")⟩

/-- C2 counterexample: a saga run (rate limit enabled) in which an
admission ticket is registered and the saga then aborts because the driver
reports ERROR on the first poll.  The ticket is removed zero times — not
exactly once — and remains outstanding after the abort, refuting the claim
that a registered ticket is removed exactly once "either on successful
readiness or on saga abort". -/
theorem C2_ticket_lifecycle_counterexample :
    (sagaProvisionRun confA driverErr agentA "log" udA [] "amp-1" none 40
        none none none none).outcome
      = SagaOutcome.abortedBuildError (some "fault-x") ∧
    (sagaProvisionRun confA driverErr agentA "log" udA [] "amp-1" none 40
        none none none none).gateEvents
      = [GateEvent.addTicket "amp-1" 40] ∧
    ticketCount (sagaProvisionRun confA driverErr agentA "log" udA []
        "amp-1" none 40 none none none none).gate "amp-1" = 1 := by
  decide

/-- C2 amended: for every saga run with the rate limit enabled and no
outstanding ticket for the amphora beforehand, a ticket is registered
exactly once; on successful readiness it is removed exactly once and the
ticket count returns to 0 (net-zero lifecycle, and at most one ticket is
ever outstanding); but on saga abort the ticket is NOT removed — it
remains outstanding (count 1) after the run. -/
theorem C2_ticket_lifecycle_amended (conf : Config) (driver : ComputeDriver)
    (agent_cfg : String → String → String) (logging_cfg : String)
    (user_data_cfg : Dict → String) (gate : GateState)
    (amphora_id : String) (config_drive_files : Option Dict)
    (build_type_priority : Nat) (server_group_id : Option String)
    (ports : Option (List String)) (flavor : Option OctaviaFlavor)
    (availability_zone : Option AvailabilityZoneMeta)
    (hrl : conf.build_rate_limit ≠ -1)
    (h0 : ticketCount gate amphora_id = 0) :
    (∀ d, (sagaProvisionRun conf driver agent_cfg logging_cfg user_data_cfg
        gate amphora_id config_drive_files build_type_priority
        server_group_id ports flavor availability_zone).outcome
          = SagaOutcome.success d →
      (sagaProvisionRun conf driver agent_cfg logging_cfg user_data_cfg
        gate amphora_id config_drive_files build_type_priority
        server_group_id ports flavor availability_zone).gateEvents
          = [GateEvent.addTicket amphora_id build_type_priority,
             GateEvent.removeTicket amphora_id] ∧
      ticketCount (sagaProvisionRun conf driver agent_cfg logging_cfg
        user_data_cfg gate amphora_id config_drive_files
        build_type_priority server_group_id ports flavor
        availability_zone).gate amphora_id = 0) ∧
    ((∀ d, (sagaProvisionRun conf driver agent_cfg logging_cfg user_data_cfg
        gate amphora_id config_drive_files build_type_priority
        server_group_id ports flavor availability_zone).outcome
          ≠ SagaOutcome.success d) →
      (sagaProvisionRun conf driver agent_cfg logging_cfg user_data_cfg
        gate amphora_id config_drive_files build_type_priority
        server_group_id ports flavor availability_zone).gateEvents
          = [GateEvent.addTicket amphora_id build_type_priority] ∧
      ticketCount (sagaProvisionRun conf driver agent_cfg logging_cfg
        user_data_cfg gate amphora_id config_drive_files
        build_type_priority server_group_id ports flavor
        availability_zone).gate amphora_id = 1) := by
  obtain ⟨hce, hcg⟩ := ComputeCreate.execute_gate_enabled conf driver
    agent_cfg logging_cfg user_data_cfg gate amphora_id config_drive_files
    build_type_priority server_group_id ports flavor availability_zone hrl
  rcases hco : (ComputeCreate.execute conf driver agent_cfg logging_cfg
      user_data_cfg gate amphora_id config_drive_files build_type_priority
      server_group_id ports flavor availability_zone).outcome with e | compute_id
  · have hsaga : sagaProvisionRun conf driver agent_cfg logging_cfg
        user_data_cfg gate amphora_id config_drive_files
        build_type_priority server_group_id ports flavor availability_zone
        = ⟨SagaOutcome.abortedBuildFailure e,
            (ComputeCreate.execute conf driver agent_cfg logging_cfg
              user_data_cfg gate amphora_id config_drive_files
              build_type_priority server_group_id ports flavor
              availability_zone).gateEvents,
            (ComputeCreate.execute conf driver agent_cfg logging_cfg
              user_data_cfg gate amphora_id config_drive_files
              build_type_priority server_group_id ports flavor
              availability_zone).gate⟩ := by
      simp only [sagaProvisionRun]
      rw [hco]
    constructor
    · intro d hd
      rw [hsaga] at hd
      exact absurd hd (fun h => SagaOutcome.noConfusion h)
    · intro _
      rw [hsaga]
      refine ⟨hce, ?_⟩
      rw [hcg, ticketCount_add, h0]
  · have hloop := ComputeActiveWait.loop_cases conf driver compute_id
      amphora_id (ComputeActiveWait.amp_network availability_zone) hrl
      conf.amp_active_retries 0
      (ComputeCreate.execute conf driver agent_cfg logging_cfg
        user_data_cfg gate amphora_id config_drive_files
        build_type_priority server_group_id ports flavor
        availability_zone).gate
    rcases hwo : (ComputeActiveWait.loop conf driver compute_id amphora_id
        (ComputeActiveWait.amp_network availability_zone)
        (ComputeCreate.execute conf driver agent_cfg logging_cfg
          user_data_cfg gate amphora_id config_drive_files
          build_type_priority server_group_id ports flavor
          availability_zone).gate 0 conf.amp_active_retries).outcome
      with d | fault | tcid
    · -- readiness success
      rcases hloop with ⟨⟨d0, hd0⟩, hwev, hwg⟩ | ⟨hne, _, _⟩
      · have hsaga : sagaProvisionRun conf driver agent_cfg logging_cfg
            user_data_cfg gate amphora_id config_drive_files
            build_type_priority server_group_id ports flavor
            availability_zone
            = ⟨SagaOutcome.success d,
                (ComputeCreate.execute conf driver agent_cfg logging_cfg
                  user_data_cfg gate amphora_id config_drive_files
                  build_type_priority server_group_id ports flavor
                  availability_zone).gateEvents ++
                (ComputeActiveWait.loop conf driver compute_id amphora_id
                  (ComputeActiveWait.amp_network availability_zone)
                  (ComputeCreate.execute conf driver agent_cfg logging_cfg
                    user_data_cfg gate amphora_id config_drive_files
                    build_type_priority server_group_id ports flavor
                    availability_zone).gate 0
                  conf.amp_active_retries).gateEvents,
                (ComputeActiveWait.loop conf driver compute_id amphora_id
                  (ComputeActiveWait.amp_network availability_zone)
                  (ComputeCreate.execute conf driver agent_cfg logging_cfg
                    user_data_cfg gate amphora_id config_drive_files
                    build_type_priority server_group_id ports flavor
                    availability_zone).gate 0
                  conf.amp_active_retries).gate⟩ := by
          simp only [sagaProvisionRun, ComputeActiveWait.execute_eq_loop,
            hco, hwo]
        constructor
        · intro d1 _
          rw [hsaga]
          refine ⟨?_, ?_⟩
          · rw [hce, hwev]
            rfl
          · rw [hwg, hcg, ticketCount_remove]
        · intro hne2
          exact absurd (by rw [hsaga]) (hne2 d)
      · exact absurd hwo (hne d)
    · -- readiness error: saga aborted
      rcases hloop with ⟨⟨d0, hd0⟩, _, _⟩ | ⟨_, hwev, hwg⟩
      · rw [hwo] at hd0
        exact absurd hd0 (fun h => WaitOutcome.noConfusion h)
      · have hsaga : sagaProvisionRun conf driver agent_cfg logging_cfg
            user_data_cfg gate amphora_id config_drive_files
            build_type_priority server_group_id ports flavor
            availability_zone
            = ⟨SagaOutcome.abortedBuildError fault,
                (ComputeCreate.execute conf driver agent_cfg logging_cfg
                  user_data_cfg gate amphora_id config_drive_files
                  build_type_priority server_group_id ports flavor
                  availability_zone).gateEvents ++
                (ComputeActiveWait.loop conf driver compute_id amphora_id
                  (ComputeActiveWait.amp_network availability_zone)
                  (ComputeCreate.execute conf driver agent_cfg logging_cfg
                    user_data_cfg gate amphora_id config_drive_files
                    build_type_priority server_group_id ports flavor
                    availability_zone).gate 0
                  conf.amp_active_retries).gateEvents,
                (ComputeActiveWait.loop conf driver compute_id amphora_id
                  (ComputeActiveWait.amp_network availability_zone)
                  (ComputeCreate.execute conf driver agent_cfg logging_cfg
                    user_data_cfg gate amphora_id config_drive_files
                    build_type_priority server_group_id ports flavor
                    availability_zone).gate 0
                  conf.amp_active_retries).gate⟩ := by
          simp only [sagaProvisionRun, ComputeActiveWait.execute_eq_loop,
            hco, hwo]
        constructor
        · intro d1 hd1
          rw [hsaga] at hd1
          exact absurd hd1 (fun h => SagaOutcome.noConfusion h)
        · intro _
          rw [hsaga]
          refine ⟨?_, ?_⟩
          · rw [hce, hwev]
            rfl
          · rw [hwg, hcg, ticketCount_add, h0]
    · -- readiness timeout: saga aborted
      rcases hloop with ⟨⟨d0, hd0⟩, _, _⟩ | ⟨_, hwev, hwg⟩
      · rw [hwo] at hd0
        exact absurd hd0 (fun h => WaitOutcome.noConfusion h)
      · have hsaga : sagaProvisionRun conf driver agent_cfg logging_cfg
            user_data_cfg gate amphora_id config_drive_files
            build_type_priority server_group_id ports flavor
            availability_zone
            = ⟨SagaOutcome.abortedTimeout tcid,
                (ComputeCreate.execute conf driver agent_cfg logging_cfg
                  user_data_cfg gate amphora_id config_drive_files
                  build_type_priority server_group_id ports flavor
                  availability_zone).gateEvents ++
                (ComputeActiveWait.loop conf driver compute_id amphora_id
                  (ComputeActiveWait.amp_network availability_zone)
                  (ComputeCreate.execute conf driver agent_cfg logging_cfg
                    user_data_cfg gate amphora_id config_drive_files
                    build_type_priority server_group_id ports flavor
                    availability_zone).gate 0
                  conf.amp_active_retries).gateEvents,
                (ComputeActiveWait.loop conf driver compute_id amphora_id
                  (ComputeActiveWait.amp_network availability_zone)
                  (ComputeCreate.execute conf driver agent_cfg logging_cfg
                    user_data_cfg gate amphora_id config_drive_files
                    build_type_priority server_group_id ports flavor
                    availability_zone).gate 0
                  conf.amp_active_retries).gate⟩ := by
          simp only [sagaProvisionRun, ComputeActiveWait.execute_eq_loop,
            hco, hwo]
        constructor
        · intro d1 hd1
          rw [hsaga] at hd1
          exact absurd hd1 (fun h => SagaOutcome.noConfusion h)
        · intro _
          rw [hsaga]
          refine ⟨?_, ?_⟩
          · rw [hce, hwev]
            rfl
          · rw [hwg, hcg, ticketCount_add, h0]

theorem C2_ticket_lifecycle_amended_witness :
    (sagaProvisionRun confA driverA agentA "log" udA [] "amp-1" none 40
        none none none none).gateEvents
      = [GateEvent.addTicket "amp-1" 40, GateEvent.removeTicket "amp-1"] ∧
    ticketCount (sagaProvisionRun confA driverA agentA "log" udA []
        "amp-1" none 40 none none none none).gate "amp-1" = 0 :=
  (C2_ticket_lifecycle_amended confA driverA agentA "log" udA [] "amp-1"
      none 40 none none none none (by decide) (by decide)).1 "d2" (by decide)

deriving instance DecidableEq for Except

/-- C3: for every run in which `ComputeCreate.execute` succeeds and returns
a compute handle, a subsequent `ComputeCreate.revert` invoked with that
result calls the driver's delete exactly once, and with exactly the handle
`execute` returned. -/
theorem C3_revert_deletes_created_handle (conf : Config)
    (driver : ComputeDriver) (agent_cfg : String → String → String)
    (logging_cfg : String) (user_data_cfg : Dict → String) (gate : GateState)
    (amphora_id : String) (config_drive_files : Option Dict)
    (build_type_priority : Nat) (server_group_id : Option String)
    (ports : Option (List String)) (flavor : Option OctaviaFlavor)
    (availability_zone : Option AvailabilityZoneMeta) (compute_id : String)
    (_h : (ComputeCreate.execute conf driver agent_cfg logging_cfg
        user_data_cfg gate amphora_id config_drive_files
        build_type_priority server_group_id ports flavor
        availability_zone).outcome = Except.ok compute_id) :
    (ComputeCreate.revert driver (PyVal.str compute_id) amphora_id).calls
      = [DriverCall.delete compute_id] := rfl

theorem C3_revert_deletes_created_handle_witness :
    (ComputeCreate.revert driverA (PyVal.str "cid-1") "amp-1").calls
      = [DriverCall.delete "cid-1"] :=
  C3_revert_deletes_created_handle confA driverA agentA "log" udA []
    "amp-1" none 40 none none none none "cid-1" (by decide)

/-- C4 counterexample: `NovaServerGroupCreate.revert`, handed the failure
marker (its `execute` itself failed), still makes a driver call: it passes
the failure marker itself to `delete_server_group`, because the source has
no `isinstance(result, failure.Failure)` guard in this revert.  This
refutes the claim that every compensable task in the module performs no
driver call when `execute` failed. -/
theorem C4_no_undo_on_failure_counterexample :
    (NovaServerGroupCreate.revert driverA PyVal.failureMarker).calls
      = [DriverCall.delete_server_group PyVal.failureMarker] ∧
    (NovaServerGroupCreate.revert driverA PyVal.failureMarker).calls
      ≠ [] := by
  constructor
  · rfl
  · decide

/-- C4 amended: `ComputeCreate.revert` performs no driver call when it
receives the failure marker; `NovaServerGroupCreate.revert`, by contrast,
always calls `delete_server_group` exactly once, passing whatever result
it received verbatim — including the failure marker when its execute
itself failed (the call is then made with the marker, fails in the driver,
and is caught and logged). -/
theorem C4_no_undo_on_failure_amended (driver : ComputeDriver)
    (amphora_id : String) :
    (ComputeCreate.revert driver PyVal.failureMarker amphora_id).calls = []
    ∧ ∀ result, (NovaServerGroupCreate.revert driver result).calls
        = [DriverCall.delete_server_group result] :=
  ⟨rfl, fun _ => rfl⟩

/-- C5: for every input and every behaviour of the driver's delete
operations, neither `ComputeCreate.revert` nor
`NovaServerGroupCreate.revert` raises: any error the delete call raises is
caught (logged and swallowed), so the revert's own outcome is always
success and the original triggering failure is never masked. -/
theorem C5_revert_never_raises (driver : ComputeDriver) (result : PyVal)
    (amphora_id : String) :
    (ComputeCreate.revert driver result amphora_id).outcome = Except.ok ()
    ∧ (NovaServerGroupCreate.revert driver result).outcome
        = Except.ok () := by
  constructor
  · cases result with
    | failureMarker => rfl
    | str compute_id =>
      cases h : driver.delete compute_id <;>
        simp [ComputeCreate.revert, h]
  · cases h : driver.delete_server_group result <;>
      simp [NovaServerGroupCreate.revert, h]

theorem DeleteAmphoraeOnLoadBalancer.loop_all_ok
    (delete_op : String → Except String Unit) :
    ∀ hs : List String, (∀ x ∈ hs, delete_op x = Except.ok ()) →
      DeleteAmphoraeOnLoadBalancer.loop delete_op hs
        = (hs.map DriverCall.delete, Except.ok ()) := by
  intro hs
  induction hs with
  | nil => intro _; rfl
  | cons h t ih =>
    intro hall
    have hh : delete_op h = Except.ok () := hall h (by simp)
    have ht := ih (fun y hy => hall y (by simp [hy]))
    simp [DeleteAmphoraeOnLoadBalancer.loop, hh, ht]

theorem DeleteAmphoraeOnLoadBalancer.loop_first_fail
    (delete_op : String → Except String Unit) :
    ∀ (pre : List String) (post : List String) (x e : String),
      (∀ y ∈ pre, delete_op y = Except.ok ()) →
      delete_op x = Except.error e →
      DeleteAmphoraeOnLoadBalancer.loop delete_op (pre ++ x :: post)
        = ((pre ++ [x]).map DriverCall.delete, Except.error e) := by
  intro pre
  induction pre with
  | nil =>
    intro post x e _ hx
    simp [DeleteAmphoraeOnLoadBalancer.loop, hx]
  | cons p ps ih =>
    intro post x e hall hx
    have hp : delete_op p = Except.ok () := hall p (by simp)
    have ht := ih post x e (fun y hy => hall y (by simp [hy])) hx
    simp [DeleteAmphoraeOnLoadBalancer.loop, hp, ht]

/-- C6: for every load balancer whose repository-known instance set is the
sequence of handles `hs`, `DeleteAmphoraeOnLoadBalancer.execute` calls the
driver's delete on the handles in order; if the delete of a handle fails,
the deletes of the later handles are never attempted and the failure
propagates to the caller unchanged; if no delete fails, delete is called
exactly once per handle. -/
theorem C6_bulk_teardown_first_failure_aborts (driver : ComputeDriver) :
    (∀ hs : List String, (∀ x ∈ hs, driver.delete x = Except.ok ()) →
      DeleteAmphoraeOnLoadBalancer.execute driver hs
        = (hs.map DriverCall.delete, Except.ok ())) ∧
    (∀ (pre post : List String) (x e : String),
      (∀ y ∈ pre, driver.delete y = Except.ok ()) →
      driver.delete x = Except.error e →
      DeleteAmphoraeOnLoadBalancer.execute driver (pre ++ x :: post)
        = ((pre ++ [x]).map DriverCall.delete, Except.error e)) :=
  ⟨fun hs hall => DeleteAmphoraeOnLoadBalancer.loop_all_ok driver.delete
      hs hall,
    fun pre post x e hall hx => DeleteAmphoraeOnLoadBalancer.loop_first_fail
      driver.delete pre post x e hall hx⟩

/-- Test fixture: a driver whose delete fails on handle "h2" only. -/
def driverB : ComputeDriver :=
  ⟨fun _ => Except.ok "cid-1",
    fun s => if s = "h2" then Except.error "boom" else Except.ok (),
    fun _ => Except.ok (),
    fun _ _ _ => (⟨AmpStatus.active, "d"⟩, none)⟩

theorem C6_bulk_teardown_first_failure_aborts_witness :
    DeleteAmphoraeOnLoadBalancer.execute driverB ["h1", "h2", "h3"]
      = ([DriverCall.delete "h1", DriverCall.delete "h2"],
          Except.error "boom") :=
  (C6_bulk_teardown_first_failure_aborts driverB).2 ["h1"] ["h3"] "h2"
    "boom" (by decide) (by decide)

/-- C7: for every Instance Create request whose availability-zone metadata
supplies a management-network id (a truthy value in the source's
`if amp_network:` check, i.e. a non-empty string), the network list passed
to the driver's build call is exactly the one-element list containing that
management network — the configured default boot-network list is replaced
entirely, not merged or appended to; when no management network is
supplied (no metadata, key absent, or an empty — falsy — value), the
default list is used unchanged. -/
theorem C7_management_network_replaces_default (conf : Config)
    (driver : ComputeDriver) (agent_cfg : String → String → String)
    (logging_cfg : String) (user_data_cfg : Dict → String) (gate : GateState)
    (amphora_id : String) (config_drive_files : Option Dict)
    (build_type_priority : Nat) (server_group_id : Option String)
    (ports : Option (List String)) (flavor : Option OctaviaFlavor) :
    (∀ (az_meta : AvailabilityZoneMeta) (n : String),
      az_meta.management_network = some n → n ≠ "" →
      (ComputeCreate.execute conf driver agent_cfg logging_cfg user_data_cfg
        gate amphora_id config_drive_files build_type_priority
        server_group_id ports flavor (some az_meta)).buildCall.network_ids
          = [n]) ∧
    (∀ availability_zone : Option AvailabilityZoneMeta,
      (availability_zone = none ∨
        ∃ m, availability_zone = some m ∧
          (m.management_network = none ∨ m.management_network = some "")) →
      (ComputeCreate.execute conf driver agent_cfg logging_cfg user_data_cfg
        gate amphora_id config_drive_files build_type_priority
        server_group_id ports flavor availability_zone).buildCall.network_ids
          = conf.amp_boot_network_list) := by
  constructor
  · intro az_meta n hm hn
    simp [ComputeCreate.execute, hm, hn]
  · intro availability_zone hcase
    rcases hcase with h | ⟨m, hm, hmn | hmn⟩
    · simp [ComputeCreate.execute, h]
    · simp [ComputeCreate.execute, hm, hmn]
    · simp [ComputeCreate.execute, hm, hmn]

theorem C7_management_network_replaces_default_witness :
    (ComputeCreate.execute confA driverA agentA "log" udA [] "amp-1" none
        40 none none none
        (some ⟨some "az1", some "mgmt-net"⟩)).buildCall.network_ids
      = ["mgmt-net"] ∧
    (ComputeCreate.execute confA driverA agentA "log" udA [] "amp-1" none
        40 none none none none).buildCall.network_ids = ["n1", "n2"] :=
  ⟨(C7_management_network_replaces_default confA driverA agentA "log" udA
      [] "amp-1" none 40 none none none).1 ⟨some "az1", some "mgmt-net"⟩
      "mgmt-net" rfl (by decide),
    (C7_management_network_replaces_default confA driverA agentA "log" udA
      [] "amp-1" none 40 none none none).2 none (Or.inl rfl)⟩

/-- C8 counterexample: a run of `ComputeCreate.execute` handed a non-empty
boot-config payload mutates it: the caller's `config_drive_files` mapping
is not the same after the call (the agent and logging config entries have
been inserted into it in place, lines 99 and 104 of the source), refuting
the claim that execute never mutates any field of the provision request. -/
theorem C8_request_unchanged_counterexample :
    (ComputeCreate.execute confA driverA agentA "log" udA [] "amp-1"
        (some [("a", "b")]) 40 none none none
        none).caller_config_drive_files
      ≠ some [("a", "b")] := by
  decide

/-- C8 amended: every field of the provision request other than the
boot-config payload is only read, never changed; the `config_drive_files`
mapping itself is left unchanged when absent or empty (the source's
`config_drive_files or {}` then binds a fresh dict), but when passed
non-empty it is aliased and mutated in place: after execute it
additionally contains the agent config entry and the logging config entry
under their fixed paths. -/
theorem C8_request_unchanged_amended (conf : Config)
    (driver : ComputeDriver) (agent_cfg : String → String → String)
    (logging_cfg : String) (user_data_cfg : Dict → String) (gate : GateState)
    (amphora_id : String) (build_type_priority : Nat)
    (server_group_id : Option String) (ports : Option (List String))
    (flavor : Option OctaviaFlavor)
    (availability_zone : Option AvailabilityZoneMeta) :
    (ComputeCreate.execute conf driver agent_cfg logging_cfg user_data_cfg
        gate amphora_id none build_type_priority server_group_id ports
        flavor availability_zone).caller_config_drive_files = none ∧
    (ComputeCreate.execute conf driver agent_cfg logging_cfg user_data_cfg
        gate amphora_id (some []) build_type_priority server_group_id ports
        flavor availability_zone).caller_config_drive_files = some [] ∧
    (∀ d : Dict, d ≠ [] →
      (ComputeCreate.execute conf driver agent_cfg logging_cfg user_data_cfg
        gate amphora_id (some d) build_type_priority server_group_id ports
        flavor availability_zone).caller_config_drive_files
        = some (dictInsert
            (dictInsert d "/etc/octavia/amphora-agent.conf"
              (agent_cfg amphora_id
                (match flavor with
                  | some f =>
                    f.loadbalancer_topology.getD conf.loadbalancer_topology
                  | none => conf.loadbalancer_topology)))
            "/etc/rsyslog.d/10-rsyslog.conf" logging_cfg)) := by
  refine ⟨?_, ?_, ?_⟩
  · simp [ComputeCreate.execute]
  · simp [ComputeCreate.execute]
  · intro d hd
    simp [ComputeCreate.execute, hd]

theorem C8_request_unchanged_amended_witness :
    (ComputeCreate.execute confA driverA agentA "log" udA [] "amp-1"
        (some [("a", "b")]) 40 none none none
        none).caller_config_drive_files
      = some [("a", "b"),
          ("/etc/octavia/amphora-agent.conf", "agent:amp-1:SINGLE"),
          ("/etc/rsyslog.d/10-rsyslog.conf", "log")] :=
  (C8_request_unchanged_amended confA driverA agentA "log" udA [] "amp-1"
      40 none none none none).2.2 [("a", "b")] (by decide)

/-- C9: for every invocation of `NovaServerGroupDelete.execute` with an
absent handle (`None`), the task returns successfully having made zero
driver calls — the driver is never handed a void identifier; and for every
present handle it calls the driver's `delete_server_group` exactly once
with exactly that handle. -/
theorem C9_server_group_delete_optional_handle (driver : ComputeDriver) :
    NovaServerGroupDelete.execute driver none = ⟨[], Except.ok ()⟩ ∧
    (∀ sgid : String, NovaServerGroupDelete.execute driver (some sgid)
      = ⟨[DriverCall.delete_server_group (PyVal.str sgid)],
          driver.delete_server_group (PyVal.str sgid)⟩) :=
  ⟨rfl, fun _ => rfl⟩
